import Mathlib

/-!
Shallow embedding of the social-score / activity-points bookkeeping engine of
the Event_Sync repository (Django application), together with theorems checking
the natural-language specification against it.

The embedded code:
  * `students/models.py`   — `Student.decrease_social_score`,
    `Student.increase_social_score`, `Student.calculate_activity_points`,
    `Student.update_activity_points`, `Student.can_register_for_activity_event`,
    and the `SocialScoreLog` row shape;
  * `attendance/models.py` — the `post_save` receivers
    `update_student_activity_points` and `update_student_social_score`, and the
    `Attendance` row shape (unique per (event, student));
  * `events/models.py`     — `Event.has_activity_points`;
  * `events/views.py`      — the social-score gate at the top of `event_register`;
  * `clubs/views.py`       — the attendance-marking loop of `event_attendance`
    (`get_or_create` then unconditional `save`, so the signals fire once per
    submitted student per POST);
  * `students/admin.py`    — `StudentAdmin.reset_social_score` and the
    `SocialScoreLogAdmin` permission hooks.

Numeric model: `social_score` is a `DecimalField(max_digits=5,
decimal_places=2)`, i.e. it stores an exact decimal with two fractional
digits.  We represent such decimals exactly as integer hundredths:
`5.00 ↦ 500`, `2.50 ↦ 250`, `97.99 ↦ 9799`, `98.00 ↦ 9800`,
`100.00 ↦ 10000`.  The Python code converts to binary `float` before its
arithmetic, but every value that arises in the repository's call sites
(multiples of 0.25 between 0.00 and 100.00, and the deltas 5.00 / 2.50) is
exactly representable in `float`, and the one boundary comparison involving a
non-dyadic stored value (`97.99 ≥ 98.00`) has the same verdict in `float`, in
exact decimal, and in this model, so integer hundredths are an exact model of
every computation the embedded code performs.

State model: the claims are all per-student, so a system state `Sys` carries
one student, their attendance rows (keyed by event id, mirroring the
`unique_together ['event', 'student']` constraint), and their score ledger
(newest first, mirroring `ordering ['-created_at']` under which
`social_score_logs.first()` returns the most recently created row).
-/

namespace EventSync

/-- `Event.EVENT_TYPE_CHOICES` of `events/models.py`. -/
inductive EventType
  | NORMAL
  | ACTIVITY_POINTS
deriving DecidableEq, Repr

/-- `Attendance.ATTENDANCE_STATUS_CHOICES` of `attendance/models.py`. -/
inductive AttStatus
  | PRESENT
  | ABSENT
deriving DecidableEq, Repr

/-- `SocialScoreLog.REASON_CHOICES` of `students/models.py`. -/
inductive Reason
  | ABSENT_FROM_EVENT
  | PRESENT_AT_NON_ACTIVITY_EVENT
  | MANUAL_ADJUSTMENT
deriving DecidableEq, Repr

/-- The fields of `events/models.py`'s `Event` that the scoring engine reads.
`activity_points` is a nullable integer column, hence `Option Int`. -/
structure Event where
  eventId : Nat
  eventName : String
  eventType : EventType
  activityPoints : Option Int
deriving DecidableEq, Repr

/-- `Event.has_activity_points` (`events/models.py` lines 115–117):
`return self.event_type == 'ACTIVITY_POINTS' and self.activity_points`.
Python truthiness: the conjunction is truthy iff the type matches and
`activity_points` is neither `None` nor `0`. -/
def Event.has_activity_points (e : Event) : Bool :=
  decide (e.eventType = EventType.ACTIVITY_POINTS) &&
    (match e.activityPoints with
     | none => false
     | some p => decide (p ≠ 0))

/-- One row of `students/models.py`'s `SocialScoreLog`: signed `change_amount`
and resulting `new_score` (both decimals with two places, stored here as
integer hundredths), `reason`, nullable `event` foreign key (stored as the
event id) and nullable free-text `remarks`. -/
structure SocialScoreLog where
  changeAmount : Int
  newScore : Int
  reason : Reason
  event : Option Nat
  remarks : Option String
deriving DecidableEq, Repr

/-- The two `Student` fields the scoring engine owns (`students/models.py`):
`social_score` (integer hundredths of a percent) and
`total_activity_points`. -/
structure Student where
  socialScore : Int
  totalActivityPoints : Int
deriving DecidableEq, Repr

/-- Per-student system state: the student row, their attendance rows
(`(event id, event, status)`, one per event by the unique constraint), and
their score ledger newest-first. -/
structure Sys where
  student : Student
  records : List (Nat × Event × AttStatus)
  logs : List SocialScoreLog
deriving DecidableEq, Repr

/-- `Student.can_register_for_activity_event` (`students/models.py` lines
115–117): `return float(self.social_score) >= 98.00`; 98.00 is 9800
hundredths. -/
def Student.can_register_for_activity_event (st : Student) : Bool :=
  decide (st.socialScore ≥ 9800)

/-- `Student.decrease_social_score` (`students/models.py` lines 119–132):
subtract `amount`, clamp below at 0 (`max(0.00, new_score)`), save, then
create one `SocialScoreLog` row with `change_amount = -amount` (the requested
delta), `new_score` the clamped score and reason `ABSENT_FROM_EVENT`;
`event` and `remarks` are not passed, hence null. -/
def Sys.decrease_social_score (s : Sys) (amount : Int) : Sys :=
  let clamped := max 0 (s.student.socialScore - amount)
  { s with
    student := { s.student with socialScore := clamped }
    logs := { changeAmount := -amount, newScore := clamped,
              reason := Reason.ABSENT_FROM_EVENT,
              event := none, remarks := none } :: s.logs }

/-- `Student.increase_social_score` (`students/models.py` lines 134–147):
add `amount`, clamp above at 100.00 (`min(100.00, new_score)`, 10000
hundredths), save, then create one `SocialScoreLog` row with
`change_amount = amount` (the requested delta), `new_score` the clamped score
and reason `PRESENT_AT_NON_ACTIVITY_EVENT`. -/
def Sys.increase_social_score (s : Sys) (amount : Int) : Sys :=
  let clamped := min 10000 (s.student.socialScore + amount)
  { s with
    student := { s.student with socialScore := clamped }
    logs := { changeAmount := amount, newScore := clamped,
              reason := Reason.PRESENT_AT_NON_ACTIVITY_EVENT,
              event := none, remarks := none } :: s.logs }

/-- `Student.calculate_activity_points` (`students/models.py` lines 94–108):
sum `event.activity_points` over the student's `PRESENT` attendance rows whose
event satisfies `has_activity_points`. -/
def Sys.calculate_activity_points (s : Sys) : Int :=
  (s.records.filter
      (fun r => decide (r.2.2 = AttStatus.PRESENT) && r.2.1.has_activity_points)).foldl
    (fun acc r => acc + r.2.1.activityPoints.getD 0) 0

/-- `Student.update_activity_points` (`students/models.py` lines 110–113):
overwrite the cached `total_activity_points` with the recomputed sum. -/
def Sys.update_activity_points (s : Sys) : Sys :=
  { s with
    student := { s.student with totalActivityPoints := s.calculate_activity_points } }

/-- The ledger-patching step of the `update_student_social_score` receiver
(`attendance/models.py` lines 144–149 and 159–164): fetch
`student.social_score_logs.first()` (the newest row, by `-created_at`
ordering), set its `event` and `remarks`, and save it. -/
def Sys.patchLatestLog (s : Sys) (eid : Nat) (remark : String) : Sys :=
  match s.logs with
  | [] => s
  | l :: rest => { s with logs := { l with event := some eid, remarks := some remark } :: rest }

/-- The `update_student_activity_points` receiver
(`attendance/models.py` lines 116–122): on every `Attendance` save, if the
status is `PRESENT`, recompute the student's activity points; otherwise do
nothing. -/
def Sys.update_student_activity_points (s : Sys) (status : AttStatus) : Sys :=
  if status = AttStatus.PRESENT then s.update_activity_points else s

/-- The `update_student_social_score` receiver
(`attendance/models.py` lines 126–170): on every `Attendance` save,
ABSENT → `decrease_social_score(5.00)` (500 hundredths) then patch the new
ledger row with the event and a remark; PRESENT at a non-`has_activity_points`
event → `increase_social_score(2.50)` (250 hundredths) then patch likewise;
PRESENT at a point-bearing event → no score change and no ledger row. -/
def Sys.update_student_social_score (s : Sys) (e : Event) (status : AttStatus) : Sys :=
  match status with
  | AttStatus.ABSENT =>
      (s.decrease_social_score 500).patchLatestLog e.eventId
        ("Marked absent from: " ++ e.eventName)
  | AttStatus.PRESENT =>
      if e.has_activity_points then s
      else
        (s.increase_social_score 250).patchLatestLog e.eventId
          ("Marked present at: " ++ e.eventName ++ " (Non-Activity Event)")

/-- The create-or-update of the attendance-marking loop in
`clubs/views.py` `event_attendance` (lines 459–480): `get_or_create` on the
`(event, student)` key, and when the row already exists overwrite its status.
Exactly one row per event id survives. -/
def upsertRecord (records : List (Nat × Event × AttStatus)) (eid : Nat) (e : Event)
    (status : AttStatus) : List (Nat × Event × AttStatus) :=
  if records.any (fun r => r.1 == eid) then
    records.map (fun r => if r.1 == eid then (eid, e, status) else r)
  else
    (eid, e, status) :: records

/-- One attendance save as performed by `event_attendance`
(`clubs/views.py`): create or update the `Attendance` row, which fires the two
`post_save` receivers of `attendance/models.py` in their registration order
(`update_student_activity_points`, then `update_student_social_score`).  Both
the `get_or_create` creation and the explicit `save()` on the existing row
fire the receivers, so they run exactly once per submitted student. -/
def Sys.save_attendance (s : Sys) (eid : Nat) (e : Event) (status : AttStatus) : Sys :=
  let s1 : Sys := { s with records := upsertRecord s.records eid e status }
  let s2 := s1.update_student_activity_points status
  s2.update_student_social_score e status

/-- `StudentAdmin.reset_social_score` (`students/admin.py` lines 185–205), for
one student: set `social_score = 100.00` (10000 hundredths), save, and create
one `SocialScoreLog` row with `change_amount = 100.00 - float(old_score)`,
`new_score = 100.00`, reason `MANUAL_ADJUSTMENT` and an explanatory remark
interpolating the old and new scores. -/
def Sys.reset_social_score (s : Sys) : Sys :=
  let old := s.student.socialScore
  { s with
    student := { s.student with socialScore := 10000 }
    logs := { changeAmount := 10000 - old, newScore := 10000,
              reason := Reason.MANUAL_ADJUSTMENT, event := none,
              remarks := some ("Reset by admin from " ++ toString old ++ "% to 100%") }
      :: s.logs }

/-- `Student.decrease_social_score` with its two persistence steps made
explicit: the method runs `self.save()` (committing the clamped score) and
then `SocialScoreLog.objects.create(...)` as two separate writes — the
repository contains no `transaction.atomic` block and never imports
`django.db.transaction`, so under Django's default autocommit each write
commits on its own.  `logCreateFails` injects a failure of the second write
(the ledger insert); the result is the state as persisted when the operation
returns or raises, paired with whether the whole operation succeeded. -/
def Sys.decrease_social_score_fallible (s : Sys) (amount : Int)
    (logCreateFails : Bool) : Sys × Bool :=
  let clamped := max 0 (s.student.socialScore - amount)
  let s1 : Sys := { s with student := { s.student with socialScore := clamped } }
  if logCreateFails then (s1, false)
  else
    ({ s1 with
        logs := { changeAmount := -amount, newScore := clamped,
                  reason := Reason.ABSENT_FROM_EVENT,
                  event := none, remarks := none } :: s1.logs },
     true)

/-- The social-score gate at the top of `event_register`
(`events/views.py` lines 150–158): registration is blocked (error message,
redirect) exactly when the event `has_activity_points()` and the student fails
`can_register_for_activity_event()`. -/
def event_register_social_block (st : Student) (e : Event) : Bool :=
  e.has_activity_points && !st.can_register_for_activity_event

/-- `SocialScoreLogAdmin.has_add_permission` (`students/admin.py`):
always `False`. -/
def socialScoreLogAdmin_has_add_permission : Bool := false

/-- `SocialScoreLogAdmin.has_change_permission` (`students/admin.py` lines
346–349): always `False`. -/
def socialScoreLogAdmin_has_change_permission : Bool := false

/-- `SocialScoreLogAdmin.has_delete_permission` (`students/admin.py` lines
342–345): always `False`. -/
def socialScoreLogAdmin_has_delete_permission : Bool := false

/-- The scoring operations of the repository that touch `social_score`:
the two `Student` methods (with their amount argument, in hundredths), an
attendance save, and the admin reset.  These are the only code paths that
assign `social_score`. -/
inductive ScoreOp
  | decrease (amount : Int)
  | increase (amount : Int)
  | attendance (eid : Nat) (e : Event) (status : AttStatus)
  | adminReset
deriving Repr

/-- Apply one scoring operation to the state. -/
def applyScoreOp (s : Sys) : ScoreOp → Sys
  | ScoreOp.decrease a => s.decrease_social_score a
  | ScoreOp.increase a => s.increase_social_score a
  | ScoreOp.attendance eid e status => s.save_attendance eid e status
  | ScoreOp.adminReset => s.reset_social_score

/-- Run a sequence of scoring operations left to right. -/
def runOps (s : Sys) (ops : List ScoreOp) : Sys := ops.foldl applyScoreOp s

/-- The amount handed to `decrease_social_score` / `increase_social_score` is
nonnegative.  Every call site in the repository passes 5.00 or 2.50 (the
defaults are the same values). -/
def ScoreOp.nonnegAmount : ScoreOp → Bool
  | ScoreOp.decrease a => decide (0 ≤ a)
  | ScoreOp.increase a => decide (0 ≤ a)
  | _ => true

/-- The spec's bounds invariant: `0.00 ≤ social_score ≤ 100.00`
(0 to 10000 hundredths). -/
def scoreInv (s : Sys) : Prop :=
  0 ≤ s.student.socialScore ∧ s.student.socialScore ≤ 10000

instance (s : Sys) : Decidable (scoreInv s) := by
  unfold scoreInv; infer_instance

/-! ### Concrete fixtures used by witnesses and counterexamples -/

/-- A `NORMAL` event, bearing no activity points. -/
def seminarEvent : Event :=
  { eventId := 1, eventName := "Seminar", eventType := EventType.NORMAL,
    activityPoints := none }

/-- An `ACTIVITY_POINTS` event carrying 10 points. -/
def hackathonEvent : Event :=
  { eventId := 2, eventName := "Hackathon", eventType := EventType.ACTIVITY_POINTS,
    activityPoints := some 10 }

/-- An `ACTIVITY_POINTS` event whose `activity_points` is `None`
(representable in the database even though `clean()` would reject it on
validated form paths). -/
def strayActivityEvent : Event :=
  { eventId := 3, eventName := "Stray", eventType := EventType.ACTIVITY_POINTS,
    activityPoints := none }

/-- A fresh state for a student at the default score 100.00 with no rows. -/
def freshSys : Sys :=
  { student := { socialScore := 10000, totalActivityPoints := 0 },
    records := [], logs := [] }

/-- A state with score 2.00 and no rows (for the clamped-decrease cases). -/
def lowScoreSys : Sys :=
  { student := { socialScore := 200, totalActivityPoints := 0 },
    records := [], logs := [] }

/-- A state with score 90.00 and an existing `PRESENT` row at the seminar. -/
def repeatMarkSys : Sys :=
  { student := { socialScore := 9000, totalActivityPoints := 0 },
    records := [(1, seminarEvent, AttStatus.PRESENT)], logs := [] }

/-! ### Helper lemmas -/

theorem patchLatestLog_student (s : Sys) (eid : Nat) (r : String) :
    (s.patchLatestLog eid r).student = s.student := by
  unfold Sys.patchLatestLog
  cases s.logs <;> rfl

theorem patchLatestLog_records (s : Sys) (eid : Nat) (r : String) :
    (s.patchLatestLog eid r).records = s.records := by
  unfold Sys.patchLatestLog
  cases s.logs <;> rfl

theorem decrease_score_eq (s : Sys) (a : Int) :
    (s.decrease_social_score a).student.socialScore = max 0 (s.student.socialScore - a) := rfl

theorem increase_score_eq (s : Sys) (a : Int) :
    (s.increase_social_score a).student.socialScore =
      min 10000 (s.student.socialScore + a) := rfl

theorem social_signal_score (s : Sys) (e : Event) (status : AttStatus) :
    (s.update_student_social_score e status).student.socialScore =
      (match status, e.has_activity_points with
       | AttStatus.ABSENT, _ => max 0 (s.student.socialScore - 500)
       | AttStatus.PRESENT, true => s.student.socialScore
       | AttStatus.PRESENT, false => min 10000 (s.student.socialScore + 250)) := by
  cases status with
  | ABSENT =>
      cases h : e.has_activity_points <;>
        simp [Sys.update_student_social_score, patchLatestLog_student, decrease_score_eq]
  | PRESENT =>
      cases h : e.has_activity_points <;>
        simp [Sys.update_student_social_score, h, patchLatestLog_student, increase_score_eq]

theorem social_signal_records (s : Sys) (e : Event) (status : AttStatus) :
    (s.update_student_social_score e status).records = s.records := by
  cases status with
  | ABSENT => simp [Sys.update_student_social_score, patchLatestLog_records,
      Sys.decrease_social_score]
  | PRESENT =>
      cases h : e.has_activity_points <;>
        simp [Sys.update_student_social_score, h, patchLatestLog_records,
          Sys.increase_social_score]

theorem social_signal_tap (s : Sys) (e : Event) (status : AttStatus) :
    (s.update_student_social_score e status).student.totalActivityPoints =
      s.student.totalActivityPoints := by
  cases status with
  | ABSENT => simp [Sys.update_student_social_score, patchLatestLog_student,
      Sys.decrease_social_score]
  | PRESENT =>
      cases h : e.has_activity_points <;>
        simp [Sys.update_student_social_score, h, patchLatestLog_student,
          Sys.increase_social_score]

theorem activity_signal_score (s : Sys) (status : AttStatus) :
    (s.update_student_activity_points status).student.socialScore =
      s.student.socialScore := by
  unfold Sys.update_student_activity_points
  cases status <;> simp [Sys.update_activity_points]

theorem activity_signal_records (s : Sys) (status : AttStatus) :
    (s.update_student_activity_points status).records = s.records := by
  unfold Sys.update_student_activity_points
  cases status <;> simp [Sys.update_activity_points]

theorem activity_signal_logs (s : Sys) (status : AttStatus) :
    (s.update_student_activity_points status).logs = s.logs := by
  unfold Sys.update_student_activity_points
  cases status <;> simp [Sys.update_activity_points]

theorem save_attendance_score (s : Sys) (eid : Nat) (e : Event) (status : AttStatus) :
    (s.save_attendance eid e status).student.socialScore =
      (match status, e.has_activity_points with
       | AttStatus.ABSENT, _ => max 0 (s.student.socialScore - 500)
       | AttStatus.PRESENT, true => s.student.socialScore
       | AttStatus.PRESENT, false => min 10000 (s.student.socialScore + 250)) := by
  unfold Sys.save_attendance
  rw [social_signal_score, activity_signal_score]

theorem save_attendance_records (s : Sys) (eid : Nat) (e : Event) (status : AttStatus) :
    (s.save_attendance eid e status).records = upsertRecord s.records eid e status := by
  unfold Sys.save_attendance
  rw [social_signal_records, activity_signal_records]

theorem reset_score_eq (s : Sys) : (s.reset_social_score).student.socialScore = 10000 := rfl

theorem social_signal_logs (s : Sys) (e : Event) (status : AttStatus) :
    (s.update_student_social_score e status).logs =
      (match status, e.has_activity_points with
       | AttStatus.ABSENT, _ =>
           { changeAmount := -500, newScore := max 0 (s.student.socialScore - 500),
             reason := Reason.ABSENT_FROM_EVENT, event := some e.eventId,
             remarks := some ("Marked absent from: " ++ e.eventName) } :: s.logs
       | AttStatus.PRESENT, true => s.logs
       | AttStatus.PRESENT, false =>
           { changeAmount := 250, newScore := min 10000 (s.student.socialScore + 250),
             reason := Reason.PRESENT_AT_NON_ACTIVITY_EVENT, event := some e.eventId,
             remarks := some ("Marked present at: " ++ e.eventName ++ " (Non-Activity Event)") }
             :: s.logs) := by
  cases status with
  | ABSENT =>
      cases h : e.has_activity_points <;>
        simp [Sys.update_student_social_score, Sys.decrease_social_score, Sys.patchLatestLog]
  | PRESENT =>
      cases h : e.has_activity_points <;>
        simp [Sys.update_student_social_score, h, Sys.increase_social_score, Sys.patchLatestLog]

theorem save_attendance_logs (s : Sys) (eid : Nat) (e : Event) (status : AttStatus) :
    (s.save_attendance eid e status).logs =
      (match status, e.has_activity_points with
       | AttStatus.ABSENT, _ =>
           { changeAmount := -500, newScore := max 0 (s.student.socialScore - 500),
             reason := Reason.ABSENT_FROM_EVENT, event := some e.eventId,
             remarks := some ("Marked absent from: " ++ e.eventName) } :: s.logs
       | AttStatus.PRESENT, true => s.logs
       | AttStatus.PRESENT, false =>
           { changeAmount := 250, newScore := min 10000 (s.student.socialScore + 250),
             reason := Reason.PRESENT_AT_NON_ACTIVITY_EVENT, event := some e.eventId,
             remarks := some ("Marked present at: " ++ e.eventName ++ " (Non-Activity Event)") }
             :: s.logs) := by
  unfold Sys.save_attendance
  rw [social_signal_logs, activity_signal_logs, activity_signal_score]

theorem calculate_only_records (s t : Sys) (h : s.records = t.records) :
    s.calculate_activity_points = t.calculate_activity_points := by
  unfold Sys.calculate_activity_points
  rw [h]

theorem save_attendance_tap (s : Sys) (eid : Nat) (e : Event) (status : AttStatus) :
    (s.save_attendance eid e status).student.totalActivityPoints =
      (if status = AttStatus.PRESENT
       then Sys.calculate_activity_points
              { s with records := upsertRecord s.records eid e status }
       else s.student.totalActivityPoints) := by
  unfold Sys.save_attendance
  rw [social_signal_tap]
  unfold Sys.update_student_activity_points
  cases status <;> simp [Sys.update_activity_points]

theorem save_attendance_calc (s : Sys) (eid : Nat) (e : Event) (status : AttStatus) :
    (s.save_attendance eid e status).calculate_activity_points =
      Sys.calculate_activity_points
        { s with records := upsertRecord s.records eid e status } := by
  exact calculate_only_records _ _ (save_attendance_records s eid e status)

theorem map_replace_same (records : List (Nat × Event × AttStatus)) (eid : Nat)
    (e : Event) (status : AttStatus)
    (hkey : ∀ r ∈ records, r.1 = eid → r = (eid, e, status)) :
    records.map (fun r => if r.1 == eid then (eid, e, status) else r) = records := by
  induction records with
  | nil => rfl
  | cons r rs ih =>
      simp only [List.map_cons, List.cons.injEq]
      constructor
      · by_cases h : r.1 = eid
        · rw [if_pos (by simpa using h)]
          exact (hkey r (List.mem_cons_self _ _) h).symm
        · rw [if_neg (by simpa using h)]
      · exact ih (fun x hx hx1 => hkey x (List.mem_cons_of_mem _ hx) hx1)

theorem upsert_existing_same (records : List (Nat × Event × AttStatus)) (eid : Nat)
    (e : Event) (status : AttStatus)
    (hmem : (eid, e, status) ∈ records)
    (hkey : ∀ r ∈ records, r.1 = eid → r = (eid, e, status)) :
    upsertRecord records eid e status = records := by
  unfold upsertRecord
  rw [if_pos, map_replace_same records eid e status hkey]
  exact List.any_eq_true.mpr ⟨(eid, e, status), hmem, by simp⟩

theorem scoreOp_preserves_inv (s : Sys) (op : ScoreOp) (hop : op.nonnegAmount = true)
    (hs : scoreInv s) : scoreInv (applyScoreOp s op) := by
  obtain ⟨h0, h100⟩ := hs
  cases op with
  | decrease a =>
      simp only [ScoreOp.nonnegAmount, decide_eq_true_eq] at hop
      refine ⟨le_max_left _ _, ?_⟩
      simp only [applyScoreOp, decrease_score_eq, max_le_iff]
      exact ⟨by norm_num, by linarith⟩
  | increase a =>
      simp only [ScoreOp.nonnegAmount, decide_eq_true_eq] at hop
      refine ⟨?_, min_le_left _ _⟩
      simp only [applyScoreOp, increase_score_eq, le_min_iff]
      exact ⟨by norm_num, by linarith⟩
  | attendance eid e status =>
      simp only [applyScoreOp, scoreInv, save_attendance_score]
      cases status with
      | ABSENT =>
          refine ⟨le_max_left _ _, ?_⟩
          simp only [max_le_iff]
          exact ⟨by norm_num, by linarith⟩
      | PRESENT =>
          cases e.has_activity_points with
          | true => exact ⟨h0, h100⟩
          | false =>
              refine ⟨?_, min_le_left _ _⟩
              simp only [le_min_iff]
              exact ⟨by norm_num, by linarith⟩
  | adminReset =>
      simp only [applyScoreOp, scoreInv, reset_score_eq]
      norm_num

/-! ### Claim theorems -/

/-- C1: for every student state and every sequence of scoring operations
(decrease, increase, attendance-triggered updates, manual admin reset) with
nonnegative requested amounts — the only amounts the repository ever passes
are 5.00 and 2.50 — the social score stays within [0.00, 100.00]: decreases
clamp at 0.00 (`max(0.00, ...)`) and increases clamp at 100.00
(`min(100.00, ...)`).  Applying this theorem to every prefix of a sequence
gives the bound after every intermediate operation. -/
theorem social_score_bounds_invariant (s : Sys) (ops : List ScoreOp)
    (hops : ∀ op ∈ ops, op.nonnegAmount = true) (hs : scoreInv s) :
    scoreInv (runOps s ops) := by
  induction ops generalizing s with
  | nil => exact hs
  | cons op rest ih =>
      exact ih (applyScoreOp s op)
        (fun o ho => hops o (List.mem_cons_of_mem _ ho))
        (scoreOp_preserves_inv s op (hops op (List.mem_cons_self _ _)) hs)

/-- Witness for C1 at a concrete run: start at 100.00, go absent twice, be
present at a normal event, reset; the bounds hold before and after. -/
theorem social_score_bounds_invariant_witness :
    scoreInv freshSys ∧
    scoreInv (runOps freshSys
      [ScoreOp.decrease 500, ScoreOp.decrease 500,
       ScoreOp.attendance 1 seminarEvent AttStatus.PRESENT,
       ScoreOp.adminReset]) :=
  ⟨by decide, social_score_bounds_invariant _ _ (by decide) (by decide)⟩

/-- C8: `can_register_for_activity_event` holds exactly when
`social_score ≥ 98.00` (9800 hundredths); it is false at 97.99 and true at
exactly 98.00; it is a pure function of the student row; and `event_register`
blocks sign-up for a point-bearing event exactly when it is false. -/
theorem eligibility_threshold :
    (∀ st : Student, st.can_register_for_activity_event = true ↔ 9800 ≤ st.socialScore) ∧
    Student.can_register_for_activity_event
      { socialScore := 9799, totalActivityPoints := 0 } = false ∧
    Student.can_register_for_activity_event
      { socialScore := 9800, totalActivityPoints := 0 } = true ∧
    (∀ (st : Student) (e : Event), e.has_activity_points = true →
      (event_register_social_block st e = true ↔
        st.can_register_for_activity_event = false)) :=
  ⟨fun st => by simp [Student.can_register_for_activity_event, ge_iff_le],
   by decide, by decide,
   fun st e he => by simp [event_register_social_block, he]⟩

/-- Witness for C8's conditional part: for a point-bearing event and a student
at 97.99, the registration gate blocks. -/
theorem eligibility_threshold_witness :
    event_register_social_block
      { socialScore := 9799, totalActivityPoints := 0 } hackathonEvent = true :=
  (eligibility_threshold.2.2.2
    { socialScore := 9799, totalActivityPoints := 0 } hackathonEvent
    (by decide)).mpr (by decide)

/-- C2: for every attendance save, the scoring outcome is exactly the one of
`update_student_social_score`: ABSENT (any event) applies the requested delta
−5.00 through `decrease_social_score` (clamped below at 0.00 per §4.2) and
logs exactly one entry with `change_amount = −5.00` and reason
`ABSENT_FROM_EVENT`; PRESENT at a non-point-bearing event applies +2.50
(clamped above at 100.00) and logs `change_amount = +2.50` with reason
`PRESENT_AT_NON_ACTIVITY_EVENT`; PRESENT at a point-bearing event leaves the
score untouched and emits no ledger entry. -/
theorem attendance_save_scoring_outcome (s : Sys) (eid : Nat) (e : Event)
    (status : AttStatus) :
    (status = AttStatus.ABSENT →
      (s.save_attendance eid e status).student.socialScore =
          max 0 (s.student.socialScore - 500) ∧
      ∃ l, (s.save_attendance eid e status).logs = l :: s.logs ∧
        l.changeAmount = -500 ∧ l.reason = Reason.ABSENT_FROM_EVENT) ∧
    (status = AttStatus.PRESENT → e.has_activity_points = false →
      (s.save_attendance eid e status).student.socialScore =
          min 10000 (s.student.socialScore + 250) ∧
      ∃ l, (s.save_attendance eid e status).logs = l :: s.logs ∧
        l.changeAmount = 250 ∧ l.reason = Reason.PRESENT_AT_NON_ACTIVITY_EVENT) ∧
    (status = AttStatus.PRESENT → e.has_activity_points = true →
      (s.save_attendance eid e status).student.socialScore = s.student.socialScore ∧
      (s.save_attendance eid e status).logs = s.logs) := by
  refine ⟨?_, ?_, ?_⟩
  · intro h
    subst h
    rw [save_attendance_score, save_attendance_logs]
    cases e.has_activity_points <;> exact ⟨rfl, _, rfl, rfl, rfl⟩
  · intro h hap
    subst h
    rw [save_attendance_score, save_attendance_logs, hap]
    exact ⟨rfl, _, rfl, rfl, rfl⟩
  · intro h hap
    subst h
    rw [save_attendance_score, save_attendance_logs, hap]
    exact ⟨rfl, rfl⟩

/-- Witness for C2: a concrete ABSENT save from 100.00 drops the score by
5.00 and appends one `ABSENT_FROM_EVENT` entry with delta −5.00. -/
theorem attendance_save_scoring_outcome_witness :
    (freshSys.save_attendance 1 seminarEvent AttStatus.ABSENT).student.socialScore =
        max 0 (freshSys.student.socialScore - 500) ∧
    ∃ l, (freshSys.save_attendance 1 seminarEvent AttStatus.ABSENT).logs =
        l :: freshSys.logs ∧
      l.changeAmount = -500 ∧ l.reason = Reason.ABSENT_FROM_EVENT :=
  (attendance_save_scoring_outcome freshSys 1 seminarEvent AttStatus.ABSENT).1 rfl

/-- C3 counterexample: mark the student PRESENT at the 10-point hackathon
(cache becomes 10), then change the same record to ABSENT.  The
`update_student_activity_points` receiver only fires for PRESENT saves, so
the cached `total_activity_points` stays 10 while the sum over PRESENT
point-bearing attendance is 0 — the claimed invariant fails after a
PRESENT→ABSENT status change. -/
theorem activity_points_cache_stale_counterexample :
    ((freshSys.save_attendance 2 hackathonEvent AttStatus.PRESENT).save_attendance 2
        hackathonEvent AttStatus.ABSENT).student.totalActivityPoints = 10 ∧
    ((freshSys.save_attendance 2 hackathonEvent AttStatus.PRESENT).save_attendance 2
        hackathonEvent AttStatus.ABSENT).calculate_activity_points = 0 ∧
    (10 : Int) ≠ 0 := by decide

/-- C3 amended: after every attendance save with status PRESENT the cached
`total_activity_points` equals the recomputed sum, and `update_activity_points`
always reproduces the sum exactly; but a save with status ABSENT leaves the
cache untouched (the receiver skips it), so a PRESENT→ABSENT status change can
leave the cache stale until the next recomputation. -/
theorem activity_points_cache_amended (s : Sys) (eid : Nat) (e : Event)
    (status : AttStatus) :
    (status = AttStatus.PRESENT →
      (s.save_attendance eid e status).student.totalActivityPoints =
        (s.save_attendance eid e status).calculate_activity_points) ∧
    ((s.update_activity_points).student.totalActivityPoints =
      s.calculate_activity_points) ∧
    (status = AttStatus.ABSENT →
      (s.save_attendance eid e status).student.totalActivityPoints =
        s.student.totalActivityPoints) := by
  refine ⟨?_, rfl, ?_⟩
  · intro h
    subst h
    rw [save_attendance_tap, save_attendance_calc, if_pos rfl]
  · intro h
    subst h
    rw [save_attendance_tap, if_neg (by decide)]

/-- Witness for C3's amended claim: after a concrete PRESENT save at the
hackathon the cache matches the recomputed sum. -/
theorem activity_points_cache_amended_witness :
    (freshSys.save_attendance 2 hackathonEvent AttStatus.PRESENT).student.totalActivityPoints =
      (freshSys.save_attendance 2 hackathonEvent AttStatus.PRESENT).calculate_activity_points :=
  (activity_points_cache_amended freshSys 2 hackathonEvent AttStatus.PRESENT).1 rfl

/-- C4 counterexample: marking ABSENT at score 2.00 clamps the score to 0.00
(an actual change of −2.00), but the single ledger entry records
`change_amount = −5.00` — the requested delta, not the post-clamp change. -/
theorem ledger_delta_counterexample :
    lowScoreSys.student.socialScore = 200 ∧
    (lowScoreSys.save_attendance 1 seminarEvent AttStatus.ABSENT).student.socialScore = 0 ∧
    ((lowScoreSys.save_attendance 1 seminarEvent AttStatus.ABSENT).logs.map
        (fun l => l.changeAmount)) = [-500] ∧
    (-500 : Int) ≠ 0 - 200 := by decide

/-- C4 amended: every mutation of `social_score` appends exactly one ledger
entry whose recorded `new_score` equals the resulting score, but whose
`change_amount` is the *requested* delta (−amount / +amount, and
target − previous for the admin reset); the requested delta equals the actual
post-clamp change only when no clamping occurs (always, for the reset). -/
theorem ledger_entry_per_mutation (s : Sys) (a : Int) :
    ((s.decrease_social_score a).student.socialScore =
        max 0 (s.student.socialScore - a) ∧
      (s.decrease_social_score a).logs =
        { changeAmount := -a, newScore := max 0 (s.student.socialScore - a),
          reason := Reason.ABSENT_FROM_EVENT, event := none, remarks := none }
          :: s.logs) ∧
    (0 ≤ s.student.socialScore - a →
      -a = max 0 (s.student.socialScore - a) - s.student.socialScore) ∧
    ((s.increase_social_score a).student.socialScore =
        min 10000 (s.student.socialScore + a) ∧
      (s.increase_social_score a).logs =
        { changeAmount := a, newScore := min 10000 (s.student.socialScore + a),
          reason := Reason.PRESENT_AT_NON_ACTIVITY_EVENT, event := none, remarks := none }
          :: s.logs) ∧
    (s.student.socialScore + a ≤ 10000 →
      a = min 10000 (s.student.socialScore + a) - s.student.socialScore) ∧
    (∃ l, (s.reset_social_score).logs = l :: s.logs ∧
      l.changeAmount = l.newScore - s.student.socialScore) := by
  refine ⟨⟨rfl, rfl⟩, ?_, ⟨rfl, rfl⟩, ?_, ⟨_, rfl, rfl⟩⟩
  · intro h
    rw [max_eq_right h]
    omega
  · intro h
    rw [min_eq_right h]
    omega

/-- Witness for C4's amended claim: a clamp-free decrease by 5.00 from 100.00
logs a delta equal to the actual change. -/
theorem ledger_entry_per_mutation_witness :
    (-500 : Int) =
      max 0 (freshSys.student.socialScore - 500) - freshSys.student.socialScore :=
  (ledger_entry_per_mutation freshSys 500).2.1 (by decide)

/-- C5 counterexample: if the ledger insert fails after the score save (the
two writes are sequential and not wrapped in a transaction), the operation
fails yet the decreased score is already persisted and no ledger entry exists
— "neither happens" is violated. -/
theorem score_ledger_atomicity_counterexample :
    (freshSys.decrease_social_score_fallible 500 true).2 = false ∧
    (freshSys.decrease_social_score_fallible 500 true).1.student.socialScore = 9500 ∧
    (freshSys.decrease_social_score_fallible 500 true).1.logs = freshSys.logs ∧
    (9500 : Int) ≠ freshSys.student.socialScore := by decide

/-- C5 amended: the score save and the ledger insert are two separate,
sequential, non-transactional writes.  When both succeed the result is
exactly `decrease_social_score` (new score persisted plus exactly one ledger
entry); when the ledger insert fails, the clamped score is nevertheless
persisted while the ledger is unchanged — the prior state is not restored. -/
theorem score_ledger_two_phase (s : Sys) (a : Int) :
    ((s.decrease_social_score_fallible a false).2 = true ∧
     (s.decrease_social_score_fallible a false).1 = s.decrease_social_score a) ∧
    ((s.decrease_social_score_fallible a true).2 = false ∧
     (s.decrease_social_score_fallible a true).1.logs = s.logs ∧
     (s.decrease_social_score_fallible a true).1.student.socialScore =
       max 0 (s.student.socialScore - a)) :=
  ⟨⟨rfl, rfl⟩, rfl, rfl, rfl⟩

/-- C6 counterexample: the student already has a PRESENT row at the seminar
(a non-point event) and score 90.00; re-invoking attendance marking with the
same status PRESENT leaves the unique row in place but raises the score to
92.50 and appends another ledger entry — re-invocation with the same status
is not a no-op on the score. -/
theorem record_attendance_idempotence_counterexample :
    repeatMarkSys.student.socialScore = 9000 ∧
    repeatMarkSys.logs.length = 0 ∧
    (repeatMarkSys.save_attendance 1 seminarEvent AttStatus.PRESENT).records =
      repeatMarkSys.records ∧
    (repeatMarkSys.save_attendance 1 seminarEvent AttStatus.PRESENT).student.socialScore
      = 9250 ∧
    (repeatMarkSys.save_attendance 1 seminarEvent AttStatus.PRESENT).logs.length = 1 ∧
    (9250 : Int) ≠ 9000 := by decide

/-- C6 amended: re-invoking attendance marking for an existing
(event, student) pair with the same status keeps the single attendance row
unchanged, but re-fires the per-save scoring side-effect: the score moves by
the same outcome again and (except for PRESENT at a point-bearing event) one
more ledger entry is appended; `total_activity_points` is recomputed on a
PRESENT re-save (idempotent, since the rows are unchanged) and untouched on an
ABSENT re-save. -/
theorem record_attendance_reapplies (s : Sys) (eid : Nat) (e : Event)
    (status : AttStatus)
    (hmem : (eid, e, status) ∈ s.records)
    (hkey : ∀ r ∈ s.records, r.1 = eid → r = (eid, e, status)) :
    (s.save_attendance eid e status).records = s.records ∧
    (status = AttStatus.ABSENT →
      (s.save_attendance eid e status).student.socialScore =
        max 0 (s.student.socialScore - 500)) ∧
    (status = AttStatus.PRESENT → e.has_activity_points = false →
      (s.save_attendance eid e status).student.socialScore =
        min 10000 (s.student.socialScore + 250)) ∧
    (status = AttStatus.PRESENT → e.has_activity_points = true →
      (s.save_attendance eid e status).student.socialScore =
        s.student.socialScore) ∧
    (s.save_attendance eid e status).logs.length =
      (if status = AttStatus.PRESENT ∧ e.has_activity_points = true
       then s.logs.length else s.logs.length + 1) ∧
    (status = AttStatus.PRESENT →
      (s.save_attendance eid e status).student.totalActivityPoints =
        s.calculate_activity_points) ∧
    (status = AttStatus.ABSENT →
      (s.save_attendance eid e status).student.totalActivityPoints =
        s.student.totalActivityPoints) := by
  have hup := upsert_existing_same s.records eid e status hmem hkey
  refine ⟨?_, ?_, ?_, ?_, ?_, ?_, ?_⟩
  · rw [save_attendance_records, hup]
  · intro h
    subst h
    rw [save_attendance_score]
  · intro h hap
    subst h
    rw [save_attendance_score, hap]
  · intro h hap
    subst h
    rw [save_attendance_score, hap]
  · rw [save_attendance_logs]
    cases status with
    | ABSENT => cases h : e.has_activity_points <;> simp [h]
    | PRESENT => cases h : e.has_activity_points <;> simp [h]
  · intro h
    subst h
    rw [save_attendance_tap, if_pos rfl, hup]
  · intro h
    subst h
    rw [save_attendance_tap, if_neg (by decide)]

/-- Witness for C6's amended claim at the concrete repeat-marking state:
the row stays, the score moves to 92.50 and one entry is appended. -/
theorem record_attendance_reapplies_witness :
    (repeatMarkSys.save_attendance 1 seminarEvent AttStatus.PRESENT).records =
      repeatMarkSys.records ∧
    (repeatMarkSys.save_attendance 1 seminarEvent AttStatus.PRESENT).student.socialScore =
      min 10000 (repeatMarkSys.student.socialScore + 250) ∧
    (repeatMarkSys.save_attendance 1 seminarEvent AttStatus.PRESENT).student.totalActivityPoints =
      repeatMarkSys.calculate_activity_points :=
  have h := record_attendance_reapplies repeatMarkSys 1 seminarEvent AttStatus.PRESENT
    (by decide) (by decide)
  ⟨h.1, h.2.2.1 rfl (by decide), h.2.2.2.2.2.1 rfl⟩

/-- C7 counterexample: on an ABSENT attendance save the receiver first calls
`decrease_social_score` — which creates the ledger row with null `event` and
`remarks` — and then fetches that same row (`social_score_logs.first()`),
assigns its `event` and `remarks`, and saves it.  The single row as created
and the single row after the save differ in exactly those two fields, so a
`ScoreLogEntry` is updated after creation. -/
theorem score_log_immutability_counterexample :
    ((freshSys.decrease_social_score 500).logs.map (fun l => (l.event, l.remarks)) =
      [(none, none)]) ∧
    ((freshSys.update_student_social_score seminarEvent AttStatus.ABSENT).logs.map
        (fun l => (l.event, l.remarks)) =
      [(some 1, some "Marked absent from: Seminar")]) ∧
    ((freshSys.update_student_social_score seminarEvent AttStatus.ABSENT).logs.map
        (fun l => (l.changeAmount, l.newScore, l.reason)) =
      (freshSys.decrease_social_score 500).logs.map
        (fun l => (l.changeAmount, l.newScore, l.reason))) ∧
    (some (1 : Nat) ≠ (none : Option Nat)) := by decide

/-- C7 amended: the ledger is append-only for all *previously existing*
entries — every scoring operation only prepends new rows, never rewrites or
removes old ones — and an entry's delta, resulting score and reason are never
changed; but the attendance path does update the just-created entry once,
setting its (initially null) event reference and remark immediately after
creation.  The admin interface refuses add, change and delete on ledger
rows. -/
theorem score_log_append_only_amended (s : Sys) (op : ScoreOp) :
    (∃ new, (applyScoreOp s op).logs = new ++ s.logs) ∧
    (∀ (t : Sys) (eid : Nat) (r : String) (l : SocialScoreLog)
        (rest : List SocialScoreLog),
      t.logs = l :: rest →
      ∃ l2, (t.patchLatestLog eid r).logs = l2 :: rest ∧
        l2.changeAmount = l.changeAmount ∧ l2.newScore = l.newScore ∧
        l2.reason = l.reason) ∧
    socialScoreLogAdmin_has_add_permission = false ∧
    socialScoreLogAdmin_has_change_permission = false ∧
    socialScoreLogAdmin_has_delete_permission = false := by
  refine ⟨?_, ?_, rfl, rfl, rfl⟩
  · cases op with
    | decrease a => exact ⟨[_], rfl⟩
    | increase a => exact ⟨[_], rfl⟩
    | adminReset => exact ⟨[_], rfl⟩
    | attendance eid e status =>
        simp only [applyScoreOp]
        rw [save_attendance_logs]
        cases status with
        | ABSENT => cases e.has_activity_points <;> exact ⟨[_], rfl⟩
        | PRESENT =>
            cases e.has_activity_points with
            | true => exact ⟨[], rfl⟩
            | false => exact ⟨[_], rfl⟩
  · intro t eid r l rest ht
    unfold Sys.patchLatestLog
    rw [ht]
    exact ⟨_, rfl, rfl, rfl, rfl⟩

/-- Witness for C7's amended claim: the ABSENT attendance save at the fresh
state prepends rows, and the patch on the concrete one-entry state preserves
delta, resulting score and reason. -/
theorem score_log_append_only_amended_witness :
    (∃ new, (applyScoreOp freshSys
        (ScoreOp.attendance 1 seminarEvent AttStatus.ABSENT)).logs =
      new ++ freshSys.logs) ∧
    ∃ l2, ((freshSys.decrease_social_score 500).patchLatestLog 1 "x").logs = l2 :: [] ∧
      l2.changeAmount = (-500 : Int) ∧ l2.newScore = (9500 : Int) ∧
      l2.reason = Reason.ABSENT_FROM_EVENT :=
  have h := score_log_append_only_amended freshSys
    (ScoreOp.attendance 1 seminarEvent AttStatus.ABSENT)
  ⟨h.1, by
    obtain ⟨l2, h1, h2, h3, h4⟩ := h.2.1 (freshSys.decrease_social_score 500) 1 "x"
      { changeAmount := -500, newScore := 9500, reason := Reason.ABSENT_FROM_EVENT,
        event := none, remarks := none } [] (by decide)
    exact ⟨l2, h1, by rw [h2], by rw [h3], by rw [h4]⟩⟩

/-- C10: `has_activity_points` is truthy exactly when the event type is
`ACTIVITY_POINTS` and `activity_points` is neither `None` nor `0`; an
`ACTIVITY_POINTS`-typed event whose points are `None` or `0` is therefore
treated as a non-point event everywhere: a PRESENT save raises the score by
2.50 (clamped at 100.00), a PRESENT row at it contributes nothing to
`calculate_activity_points`, and registration for it is never blocked by the
98.00 gate. -/
theorem has_activity_points_truthiness (e : Event) :
    (e.has_activity_points = true ↔
      e.eventType = EventType.ACTIVITY_POINTS ∧
        ∃ p, e.activityPoints = some p ∧ p ≠ 0) ∧
    (e.activityPoints = none ∨ e.activityPoints = some 0 →
      e.has_activity_points = false ∧
      (∀ (s : Sys) (eid : Nat),
        (s.save_attendance eid e AttStatus.PRESENT).student.socialScore =
          min 10000 (s.student.socialScore + 250)) ∧
      (∀ (s : Sys) (i : Nat),
        Sys.calculate_activity_points
          { s with records := (i, e, AttStatus.PRESENT) :: s.records } =
          s.calculate_activity_points) ∧
      (∀ st : Student, event_register_social_block st e = false)) := by
  constructor
  · cases hp : e.activityPoints with
    | none => simp [Event.has_activity_points, hp]
    | some p => simp [Event.has_activity_points, hp, and_comm]
  · intro hpts
    have hfalse : e.has_activity_points = false := by
      cases hpts with
      | inl h => simp [Event.has_activity_points, h]
      | inr h => simp [Event.has_activity_points, h]
    refine ⟨hfalse, ?_, ?_, ?_⟩
    · intro s eid
      rw [save_attendance_score, hfalse]
    · intro s i
      unfold Sys.calculate_activity_points
      simp [hfalse]
    · intro st
      simp [event_register_social_block, hfalse]

/-- Witness for C10 at the concrete `ACTIVITY_POINTS`-typed event with null
points: it is non-point-bearing, a PRESENT save from 90.00 gives 92.50, its
rows add nothing to the sum, and the gate never blocks. -/
theorem has_activity_points_truthiness_witness :
    strayActivityEvent.has_activity_points = false ∧
    (repeatMarkSys.save_attendance 3 strayActivityEvent AttStatus.PRESENT).student.socialScore =
      min 10000 (repeatMarkSys.student.socialScore + 250) ∧
    event_register_social_block
      { socialScore := 0, totalActivityPoints := 0 } strayActivityEvent = false :=
  have h := (has_activity_points_truthiness strayActivityEvent).2 (Or.inl rfl)
  ⟨h.1, h.2.1 repeatMarkSys 3, h.2.2.2 _⟩

/-- C9: the admin reset sets `social_score` to exactly 100.00 (10000
hundredths) and appends exactly one ledger row with reason
`MANUAL_ADJUSTMENT`, delta `100.00 − previous score`, and recorded resulting
score 100.00. -/
theorem admin_reset_social_score (s : Sys) :
    (s.reset_social_score).student.socialScore = 10000 ∧
    ∃ l, (s.reset_social_score).logs = l :: s.logs ∧
      l.reason = Reason.MANUAL_ADJUSTMENT ∧
      l.changeAmount = 10000 - s.student.socialScore ∧
      l.newScore = 10000 :=
  ⟨rfl, _, rfl, rfl, rfl, rfl⟩

end EventSync
